import Mathlib

/-!
Shallow embedding of `src/main.py` (HistoricalWeather): a command-line tool
that resolves a US zip code to coordinates, fetches a daily maximum
temperature time series from a weather archive, and offers derived queries
(average, threshold filter, top-N) plus a menu session holding two datasets.

External collaborators (the pgeocode geocoder and the HTTP archive) are
modelled as oracle functions passed in as parameters.  Python exceptions are
modelled by the inductive `PyExc`; fallible code returns `Except`.
Temperatures are modelled as rationals; Python float NaN and Python `None`
are modelled explicitly (`PyFloat.nan`, `Option`).
-/

/-- A Python float value as relevant here: either NaN or a numeric value. -/
inductive PyFloat
  | nan
  | num (q : ℚ)
  deriving DecidableEq, Repr

/-- Python exceptions raised by the program, by class and message. -/
inductive PyExc
  | lookupError (msg : String)
  | typeError (msg : String)
  | zeroDivisionError (msg : String)
  | requestError (msg : String)
  | jsonError (msg : String)
  deriving DecidableEq, Repr

/-- The message text of an exception, as interpolated by the f-strings. -/
def PyExc.excMsg : PyExc → String
  | .lookupError m => m
  | .typeError m => m
  | .zeroDivisionError m => m
  | .requestError m => m
  | .jsonError m => m

/-- An ASCII apostrophe, used in the literal error message text. -/
def squote : String := String.singleton (Char.ofNat 39)

/-- One row of the pgeocode result: latitude, longitude and place name.
Coordinates may be NaN when the postal code is unknown. -/
structure GeoRow where
  latitude : PyFloat
  longitude : PyFloat
  place_name : String
  deriving DecidableEq, Repr

/-- Result of `nomi.query_postal_code`: either an empty result
(`location.empty` is true) or a row of location data. -/
inductive GeoResult
  | empty
  | found (row : GeoRow)
  deriving DecidableEq, Repr

/-- The geocoder collaborator: maps a postal code string to a result. -/
def Geocoder : Type := String → GeoResult

/-- Query parameters of the archive request built by `_load_temps`. -/
structure Params where
  latitude : Option PyFloat
  longitude : Option PyFloat
  start_date : String
  end_date : String
  daily : String
  timezone : String
  deriving DecidableEq, Repr

/-- The decoded `data_dict['daily']` object of a well-formed archive
response: two parallel arrays of dates and temperatures. -/
structure ArchiveResponse where
  time : List String
  temperature_2m_max : List ℚ
  deriving DecidableEq, Repr

/-- The archive collaborator: `requests.get` on the archive URL followed by
`json.loads` and access to the `daily` fields.  An error models an HTTP
failure, malformed JSON, or missing fields. -/
def Archive : Type := Params → Except PyExc ArchiveResponse

/-- `math.isnan` applied to a Python value that may be `None`: raises
`TypeError` on `None`, otherwise reports whether the float is NaN. -/
def math_isnan : Option PyFloat → Except PyExc Bool
  | none => .error (.typeError "must be real number, not NoneType")
  | some .nan => .ok true
  | some (.num _) => .ok false

/-- Python true division `total / len`: raises `ZeroDivisionError` when the
denominator is zero. -/
def pyDiv (a : ℚ) (n : Nat) : Except PyExc ℚ :=
  if n = 0 then .error (.zeroDivisionError "division by zero") else .ok (a / n)

/-- Python list slicing `l[:n]` for an arbitrary integer bound `n`:
a nonnegative bound takes the first `n` elements, a negative bound drops
the last `-n` elements. -/
def pySliceTo {α : Type} (l : List α) (n : Int) : List α :=
  if 0 ≤ n then l.take n.toNat else l.take (l.length - (-n).toNat)

/-- Python `sorted(l, key=lambda x: x[1], reverse=True)`: a stable sort,
descending by the second component.  `List.insertionSort` with the relation
`b.2 ≤ a.2` places each element after all strictly hotter ones and after
earlier elements of equal temperature, which is exactly CPython stable
descending order. -/
def pySortedByTempDesc (l : List (String × ℚ)) : List (String × ℚ) :=
  l.insertionSort (fun a b => b.2 ≤ a.2)

/-- State of a `HistoricalTemps` object: one attribute per Python
attribute. -/
structure HistoricalTemps where
  _zip_code : String
  _start : String
  _end : String
  _lat : Option PyFloat
  _lon : Option PyFloat
  _loc_name : Option String
  _temp_list : Option (List (String × ℚ))
  deriving DecidableEq, Repr

namespace HistoricalTemps

/-- `HistoricalTemps.zip_to_loc_info` (src/main.py:167-188): queries the
geocoder; on an empty result returns the sentinel triple
`(None, None, None)`, otherwise the row values.  The `Except` result type
records that the lookup itself could in principle raise; the definition
never does. -/
def zip_to_loc_info (nomi : Geocoder) (zip_code : String) :
    Except PyExc (Option PyFloat × Option PyFloat × Option String) :=
  match nomi zip_code with
  | .empty => .ok (none, none, none)
  | .found row => .ok (some row.latitude, some row.longitude, some row.place_name)

/-- `HistoricalTemps._convert_json_to_list` (src/main.py:190-204) on a
well-formed response: `list(zip(dates, temps))`, pairing the two parallel
arrays positionally; Python `zip` stops at the shorter array. -/
def _convert_json_to_list (data : ArchiveResponse) : List (String × ℚ) :=
  List.zip data.time data.temperature_2m_max

/-- The `params` dictionary built by `_load_temps` (src/main.py:74-81)
from the current attributes. -/
def requestParams (self : HistoricalTemps) : Params :=
  { latitude := self._lat
    longitude := self._lon
    start_date := self._start
    end_date := self._end
    daily := "temperature_2m_max"
    timezone := "America/Los_Angeles" }

/-- `HistoricalTemps._load_temps` (src/main.py:65-85): builds the request
parameters from the current attributes, performs the fetch, and on success
stores the converted pair list in `_temp_list`.  On a fetch/parse failure
the exception propagates and the state is unchanged. -/
def _load_temps (fetch : Archive) (self : HistoricalTemps) :
    Except PyExc HistoricalTemps :=
  match fetch (requestParams self) with
  | .error e => .error e
  | .ok response => .ok { self with _temp_list := some (_convert_json_to_list response) }

/-- `HistoricalTemps.__init__` (src/main.py:40-63): resolves the zip code,
raises `LookupError` when either coordinate is NaN (short-circuit `or`, so
`math.isnan(lat)` is evaluated first), stores the location, then performs
the initial `_load_temps`, whose failure propagates. -/
def init (nomi : Geocoder) (fetch : Archive) (zip_code start «end» : String) :
    Except PyExc HistoricalTemps :=
  match zip_to_loc_info nomi zip_code with
  | .error e => .error e
  | .ok (lat, lon, loc_name) =>
    match math_isnan lat with
    | .error e => .error e
    | .ok true => .error (.lookupError "Invalid zip code: Location not found")
    | .ok false =>
      match math_isnan lon with
      | .error e => .error e
      | .ok true => .error (.lookupError "Invalid zip code: Location not found")
      | .ok false =>
        _load_temps fetch
          { _zip_code := zip_code
            _start := start
            _end := «end»
            _lat := lat
            _lon := lon
            _loc_name := loc_name
            _temp_list := none }

/-- `HistoricalTemps.average_temp` (src/main.py:87-96): sums the
temperatures and divides by the length.  Iterating over an unset
(`None`) payload raises `TypeError`; dividing by a zero length raises
`ZeroDivisionError`. -/
def average_temp (self : HistoricalTemps) : Except PyExc ℚ :=
  match self._temp_list with
  | none => .error (.typeError "NoneType object is not iterable")
  | some l => pyDiv ((l.map Prod.snd).sum) l.length

/-- `HistoricalTemps.is_data_loaded` (src/main.py:98-105). -/
def is_data_loaded (self : HistoricalTemps) : Bool :=
  self._temp_list.isSome

/-- `HistoricalTemps.extreme_days` (src/main.py:206-217): the pairs whose
temperature strictly exceeds the threshold, in payload order. -/
def extreme_days (self : HistoricalTemps) (threshold : ℚ) :
    Except PyExc (List (String × ℚ)) :=
  match self._temp_list with
  | none => .error (.typeError "NoneType object is not iterable")
  | some l => .ok (l.filter (fun p => threshold < p.2))

/-- `HistoricalTemps.top_x_days` (src/main.py:219-230):
`sorted(self._temp_list, key=lambda x: x[1], reverse=True)[:num_days]`. -/
def top_x_days (self : HistoricalTemps) (num_days : Int) :
    Except PyExc (List (String × ℚ)) :=
  match self._temp_list with
  | none => .error (.typeError "NoneType object is not iterable")
  | some l => .ok (pySliceTo (pySortedByTempDesc l) num_days)

/-- The f-string `f"Can't load data for start date {value}: {e}"`
(src/main.py:135), and the analogous end-date message (src/main.py:155). -/
def cant_load_msg (which value causeMsg : String) : String :=
  "Can" ++ squote ++ "t load data for " ++ which ++ " date " ++ value ++ ": " ++ causeMsg

/-- The `start` property setter (src/main.py:127-135): stores the new
value, reloads, and on failure restores the old value and raises
`LookupError` wrapping the cause.  The error branch carries the object
state visible to the caller after the exception. -/
def set_start (fetch : Archive) (self : HistoricalTemps) (value : String) :
    Except (PyExc × HistoricalTemps) HistoricalTemps :=
  let old_start := self._start
  let self1 := { self with _start := value }
  match _load_temps fetch self1 with
  | .ok s2 => .ok s2
  | .error e =>
    .error (.lookupError (cant_load_msg "start" value e.excMsg),
            { self1 with _start := old_start })

/-- The `end` property setter (src/main.py:147-155): stores the new value,
reloads, and on failure restores the old value and raises `LookupError`
wrapping the cause. -/
def set_end (fetch : Archive) (self : HistoricalTemps) (value : String) :
    Except (PyExc × HistoricalTemps) HistoricalTemps :=
  let old_end := self._end
  let self1 := { self with _end := value }
  match _load_temps fetch self1 with
  | .ok s2 => .ok s2
  | .error e =>
    .error (.lookupError (cant_load_msg "end" value e.excMsg),
            { self1 with _end := old_end })

end HistoricalTemps

/-- `create_dataset` (src/main.py:18-26): constructs a `HistoricalTemps`
for the entered zip code with the default date range; a `LookupError` is
caught (an error message is printed) and `None` is returned; any other
exception propagates. -/
def create_dataset (nomi : Geocoder) (fetch : Archive) (zip_code : String) :
    Except PyExc (Option HistoricalTemps) :=
  match HistoricalTemps.init nomi fetch zip_code "1950-08-13" "2023-08-25" with
  | .ok dataset => .ok (some dataset)
  | .error (.lookupError _) => .ok none
  | .error e => .error e

/-- Outcome of one run of the `change_dates` dialog, matching each early
return of src/main.py:300-325. -/
inductive ChangeOutcome
  | notLoaded
  | startFailed (e : PyExc)
  | endFailed (e : PyExc)
  | success
  deriving DecidableEq, Repr

/-- `change_dates` (src/main.py:300-325): assigns the new start; on
`LookupError` prints and returns without prompting for an end date.
Otherwise assigns the new end; on `LookupError` prints and returns.  The
returned state is the dataset as left by the setters. -/
def change_dates (fetch : Archive) (dataset : HistoricalTemps)
    (new_start new_end : String) : HistoricalTemps × ChangeOutcome :=
  if dataset.is_data_loaded = false then
    (dataset, .notLoaded)
  else
    match HistoricalTemps.set_start fetch dataset new_start with
    | .error (e, ds1) => (ds1, .startFailed e)
    | .ok ds1 =>
      match HistoricalTemps.set_end fetch ds1 new_end with
      | .error (e, ds2) => (ds2, .endFailed e)
      | .ok ds2 => (ds2, .success)

/-- The two dataset slots held by `menu` (src/main.py:339-388). -/
structure MenuState where
  dataset_one : Option HistoricalTemps
  dataset_two : Option HistoricalTemps

/-- Menu option 1 (src/main.py:354-355): `dataset_one = create_dataset()`.
The slot receives whatever `create_dataset` returns; a propagating
exception aborts the session. -/
def menu_option1 (nomi : Geocoder) (fetch : Archive) (zip_code : String)
    (s : MenuState) : Except PyExc MenuState :=
  match create_dataset nomi fetch zip_code with
  | .ok d => .ok { s with dataset_one := d }
  | .error e => .error e

/-- Menu option 2 (src/main.py:356-357): `dataset_two = create_dataset()`. -/
def menu_option2 (nomi : Geocoder) (fetch : Archive) (zip_code : String)
    (s : MenuState) : Except PyExc MenuState :=
  match create_dataset nomi fetch zip_code with
  | .ok d => .ok { s with dataset_two := d }
  | .error e => .error e

/-! ## Sample concrete values used by witnesses and counterexamples -/

/-- A concrete loaded dataset used to instantiate universally quantified
theorems. -/
def sample_ds : HistoricalTemps :=
  { _zip_code := "90210"
    _start := "1950-08-13"
    _end := "2023-08-25"
    _lat := some (.num 34)
    _lon := some (.num (-118))
    _loc_name := some "Beverly Hills"
    _temp_list := some [("2020-01-01", 20), ("2020-01-02", 25)] }

/-- An archive oracle that always fails with a connection error. -/
def failFetch : Archive := fun _ => .error (.requestError "connection refused")

/-- An archive oracle that always returns one fixed day of data. -/
def okFetch : Archive :=
  fun _ => .ok { time := ["2020-01-01"], temperature_2m_max := [20] }

/-- An archive oracle that succeeds only for the default end date and fails
for any other requested range. -/
def splitFetch : Archive := fun p =>
  if p.end_date = "2023-08-25" then
    .ok { time := ["2020-01-01"], temperature_2m_max := [20] }
  else .error (.requestError "range unavailable")

/-- A geocoder that resolves every postal code to fixed finite
coordinates. -/
def goodGeo : Geocoder :=
  fun _ => .found { latitude := .num 34, longitude := .num (-118),
                    place_name := "Beverly Hills" }

/-- A geocoder that reports NaN coordinates for every postal code, the way
pgeocode reports an unknown but well-formed zip code. -/
def nanGeo : Geocoder :=
  fun _ => .found { latitude := .nan, longitude := .nan, place_name := "" }

/-! ## Claims -/

/-- C1: for every dataset and every new start or end date value, if the
payload reload triggered by the assignment fails, the mutated endpoint is
restored and the resulting state equals the original state exactly (other
endpoint and payload untouched), and the raised failure is the date-range
error — realized as a `LookupError` whose message wraps the underlying
cause — for the respective endpoint. -/
theorem date_setter_rollback (fetch : Archive) (st : HistoricalTemps)
    (v : String) (e : PyExc) :
    (HistoricalTemps._load_temps fetch { st with _start := v } = .error e →
      HistoricalTemps.set_start fetch st v =
        .error (.lookupError (HistoricalTemps.cant_load_msg "start" v e.excMsg), st)) ∧
    (HistoricalTemps._load_temps fetch { st with _end := v } = .error e →
      HistoricalTemps.set_end fetch st v =
        .error (.lookupError (HistoricalTemps.cant_load_msg "end" v e.excMsg), st)) := by
  cases st
  constructor <;> intro h <;>
    simp [HistoricalTemps.set_start, HistoricalTemps.set_end, h]

/-- Witness for C1 at a concrete dataset and an always-failing fetch. -/
theorem date_setter_rollback_witness :
    HistoricalTemps.set_start failFetch sample_ds "2024-01-01" =
      .error (.lookupError
        (HistoricalTemps.cant_load_msg "start" "2024-01-01" "connection refused"),
        sample_ds) ∧
    HistoricalTemps.set_end failFetch sample_ds "2024-01-01" =
      .error (.lookupError
        (HistoricalTemps.cant_load_msg "end" "2024-01-01" "connection refused"),
        sample_ds) :=
  ⟨(date_setter_rollback failFetch sample_ds "2024-01-01"
      (.requestError "connection refused")).1 rfl,
   (date_setter_rollback failFetch sample_ds "2024-01-01"
      (.requestError "connection refused")).2 rfl⟩

/-- C6: on a dataset whose loaded payload is empty, `average_temp` hits the
unguarded division by zero: it fails with `ZeroDivisionError` from the
division itself, with no explicit empty-payload guard in the method. -/
theorem average_temp_empty_div_zero (z s e : String) (la lo : Option PyFloat)
    (nm : Option String) :
    HistoricalTemps.average_temp ⟨z, s, e, la, lo, nm, some []⟩ =
      .error (.zeroDivisionError "division by zero") := rfl

/-- C7: `zip_to_loc_info` never raises — it always returns a value — and
on an unresolvable postal code (empty geocoder result) it returns the
sentinel triple `(None, None, None)`. -/
theorem zip_to_loc_info_total_sentinel (nomi : Geocoder) (zip_code : String) :
    (∃ v, HistoricalTemps.zip_to_loc_info nomi zip_code = .ok v) ∧
    (nomi zip_code = .empty →
      HistoricalTemps.zip_to_loc_info nomi zip_code = .ok (none, none, none)) := by
  cases h : nomi zip_code <;> simp [HistoricalTemps.zip_to_loc_info, h]

/-- Witness for C7 at a geocoder that resolves nothing. -/
theorem zip_to_loc_info_sentinel_witness :
    HistoricalTemps.zip_to_loc_info (fun _ => GeoResult.empty) "99999" =
      .ok (none, none, none) :=
  (zip_to_loc_info_total_sentinel (fun _ => GeoResult.empty) "99999").2 rfl

/-- C8: on a well-formed archive response whose parallel arrays have
mismatched lengths, `_convert_json_to_list` silently pairs them
positionally up to the shorter length: the result has length
`min |dates| |temps|` and agrees index-wise with both arrays; no error is
raised (the function is total). -/
theorem convert_json_truncates (dates : List String) (temps : List ℚ)
    (hne : dates.length ≠ temps.length) :
    (HistoricalTemps._convert_json_to_list ⟨dates, temps⟩).length =
      min dates.length temps.length ∧
    (∀ (i : Nat) (di : String) (ti : ℚ), dates[i]? = some di → temps[i]? = some ti →
      (HistoricalTemps._convert_json_to_list ⟨dates, temps⟩)[i]? = some (di, ti)) := by
  refine ⟨by simp [HistoricalTemps._convert_json_to_list], ?_⟩
  intro i di ti hd ht
  simp [HistoricalTemps._convert_json_to_list, List.getElem?_zip_eq_some, hd, ht]

/-- Witness for C8: three dates against two temperatures yield exactly two
index-aligned pairs. -/
theorem convert_json_truncates_witness :
    (HistoricalTemps._convert_json_to_list ⟨["d1", "d2", "d3"], [10, 20]⟩).length =
      min 3 2 ∧
    (HistoricalTemps._convert_json_to_list ⟨["d1", "d2", "d3"], [10, 20]⟩)[1]? =
      some ("d2", 20) :=
  ⟨(convert_json_truncates ["d1", "d2", "d3"] [10, 20] (by decide)).1,
   (convert_json_truncates ["d1", "d2", "d3"] [10, 20] (by decide)).2 1 "d2" 20 rfl rfl⟩

/-- C2 (amended): if the geocoder resolves the postal code to finite
(non-NaN) coordinates and the initial archive fetch succeeds, construction
succeeds; if either returned coordinate is NaN, construction fails with the
`LookupError` location-not-found failure.  (When the geocoder returns an
empty result, construction instead fails with a `TypeError`; see the
counterexample.) -/
theorem init_geocode_outcomes (nomi : Geocoder) (fetch : Archive)
    (zip_code start «end» : String) (row : GeoRow) :
    (∀ (a b : ℚ) (resp : ArchiveResponse),
      nomi zip_code = .found row → row.latitude = .num a → row.longitude = .num b →
      fetch { latitude := some (.num a), longitude := some (.num b),
              start_date := start, end_date := «end»,
              daily := "temperature_2m_max",
              timezone := "America/Los_Angeles" } = .ok resp →
      HistoricalTemps.init nomi fetch zip_code start «end» =
        .ok { _zip_code := zip_code, _start := start, _end := «end»,
              _lat := some (.num a), _lon := some (.num b),
              _loc_name := some row.place_name,
              _temp_list := some (HistoricalTemps._convert_json_to_list resp) }) ∧
    (nomi zip_code = .found row →
      (row.latitude = .nan ∨ row.longitude = .nan) →
      HistoricalTemps.init nomi fetch zip_code start «end» =
        .error (.lookupError "Invalid zip code: Location not found")) := by
  constructor
  · intro a b resp hfound hla hlo hok
    simp [HistoricalTemps.init, HistoricalTemps.zip_to_loc_info, hfound, hla, hlo,
      math_isnan, HistoricalTemps._load_temps, HistoricalTemps.requestParams, hok]
  · intro hfound hnan
    rcases hnan with hla | hlo
    · simp [HistoricalTemps.init, HistoricalTemps.zip_to_loc_info, hfound, hla,
        math_isnan]
    · cases hlat : row.latitude <;>
        simp [HistoricalTemps.init, HistoricalTemps.zip_to_loc_info, hfound, hlat, hlo,
          math_isnan]

/-- Witness for C2 at a resolving geocoder with a working archive, and at a
NaN-reporting geocoder. -/
theorem init_geocode_outcomes_witness :
    HistoricalTemps.init goodGeo okFetch "90210" "1950-08-13" "2023-08-25" =
      .ok { _zip_code := "90210", _start := "1950-08-13", _end := "2023-08-25",
            _lat := some (.num 34), _lon := some (.num (-118)),
            _loc_name := some "Beverly Hills",
            _temp_list := some [("2020-01-01", 20)] } ∧
    HistoricalTemps.init nanGeo okFetch "00000" "1950-08-13" "2023-08-25" =
      .error (.lookupError "Invalid zip code: Location not found") :=
  ⟨(init_geocode_outcomes goodGeo okFetch "90210" "1950-08-13" "2023-08-25"
      { latitude := .num 34, longitude := .num (-118), place_name := "Beverly Hills" }).1
      34 (-118) { time := ["2020-01-01"], temperature_2m_max := [20] } rfl rfl rfl rfl,
   (init_geocode_outcomes nanGeo okFetch "00000" "1950-08-13" "2023-08-25"
      { latitude := .nan, longitude := .nan, place_name := "" }).2 rfl (Or.inl rfl)⟩

/-- C2 counterexample: when the geocoder returns an empty result (both
coordinates undefined), construction fails with the `TypeError` raised by
`math.isnan(None)`, not with a `LookupError`; the claim's
location-not-found failure does not occur on this input. -/
theorem init_empty_geocode_cex :
    HistoricalTemps.init (fun _ => GeoResult.empty) failFetch "00000"
        "1950-08-13" "2023-08-25" =
      .error (.typeError "must be real number, not NoneType") ∧
    ¬ ∃ m, HistoricalTemps.init (fun _ => GeoResult.empty) failFetch "00000"
        "1950-08-13" "2023-08-25" = .error (.lookupError m) := by
  refine ⟨rfl, ?_⟩
  rintro ⟨m, h⟩
  rw [show HistoricalTemps.init (fun _ => GeoResult.empty) failFetch "00000"
      "1950-08-13" "2023-08-25" =
      .error (.typeError "must be real number, not NoneType") from rfl] at h
  simp at h

/-- C9: whenever construction fails with a `LookupError`, `create_dataset`
returns `None`, and selecting menu option 1 or 2 with that zip code sets
the chosen slot to `None`, discarding whatever dataset the slot held. -/
theorem create_dataset_overwrites_slot (nomi : Geocoder) (fetch : Archive)
    (zip_code m : String)
    (h : HistoricalTemps.init nomi fetch zip_code "1950-08-13" "2023-08-25" =
      .error (.lookupError m)) :
    create_dataset nomi fetch zip_code = .ok none ∧
    (∀ s : MenuState,
      menu_option1 nomi fetch zip_code s =
        .ok { dataset_one := none, dataset_two := s.dataset_two } ∧
      menu_option2 nomi fetch zip_code s =
        .ok { dataset_one := s.dataset_one, dataset_two := none }) := by
  have hc : create_dataset nomi fetch zip_code = .ok none := by
    simp [create_dataset, h]
  exact ⟨hc, fun s => ⟨by simp [menu_option1, hc], by simp [menu_option2, hc]⟩⟩

/-- Witness for C9: an invalid zip code empties slot one even though it
held a dataset. -/
theorem create_dataset_overwrites_slot_witness :
    create_dataset nanGeo okFetch "00000" = .ok none ∧
    menu_option1 nanGeo okFetch "00000"
        { dataset_one := some sample_ds, dataset_two := some sample_ds } =
      .ok { dataset_one := none, dataset_two := some sample_ds } :=
  have h := create_dataset_overwrites_slot nanGeo okFetch "00000"
    "Invalid zip code: Location not found" rfl
  ⟨h.1, (h.2 { dataset_one := some sample_ds, dataset_two := some sample_ds }).1⟩

/-- C5: on a non-empty loaded payload, `average_temp` returns the sum of
the temperatures divided by the number of entries (the unweighted
arithmetic mean, no filtering); in particular a payload of N copies of V
averages to V. -/
theorem average_temp_mean (z s e : String) (la lo : Option PyFloat)
    (nm : Option String) :
    (∀ l : List (String × ℚ), l ≠ [] →
      HistoricalTemps.average_temp ⟨z, s, e, la, lo, nm, some l⟩ =
        .ok ((l.map Prod.snd).sum / l.length)) ∧
    (∀ (N : Nat) (V : ℚ) (d : String), 0 < N →
      HistoricalTemps.average_temp
          ⟨z, s, e, la, lo, nm, some (List.replicate N (d, V))⟩ = .ok V) := by
  constructor
  · intro l hl
    simp [HistoricalTemps.average_temp, pyDiv, List.length_eq_zero, hl]
  · intro N V d hN
    simp [HistoricalTemps.average_temp, pyDiv, hN.ne', List.sum_replicate,
      nsmul_eq_mul]

/-- Witness for C5 on a two-day payload and on three identical values. -/
theorem average_temp_mean_witness :
    HistoricalTemps.average_temp
        ⟨"90210", "1950-08-13", "2023-08-25", some (.num 34), some (.num (-118)),
          some "Beverly Hills", some [("2020-01-01", 20), ("2020-01-02", 25)]⟩ =
      .ok (45 / 2) ∧
    HistoricalTemps.average_temp
        ⟨"z", "s", "e", none, none, none, some (List.replicate 3 ("d", 7))⟩ =
      .ok 7 := by
  constructor
  · have h := (average_temp_mean "90210" "1950-08-13" "2023-08-25"
      (some (.num 34)) (some (.num (-118))) (some "Beverly Hills")).1
      [("2020-01-01", 20), ("2020-01-02", 25)] (by decide)
    rw [h]; norm_num
  · exact (average_temp_mean "z" "s" "e" none none none).2 3 7 "d" (by decide)

/-- C4: `extreme_days` returns exactly the pairs with temperature strictly
above the threshold, in original order (a sublist of the payload whose
members are exactly the qualifying occurrences), and at the payload's
maximum temperature it returns the empty list. -/
theorem extreme_days_spec (z s e : String) (la lo : Option PyFloat)
    (nm : Option String) (l : List (String × ℚ)) (t : ℚ) :
    ∃ r, HistoricalTemps.extreme_days ⟨z, s, e, la, lo, nm, some l⟩ t = .ok r ∧
      r.Sublist l ∧
      (∀ p ∈ r, t < p.2) ∧
      (∀ p : String × ℚ, List.count p r = if t < p.2 then List.count p l else 0) ∧
      (∀ m : ℚ, (l.map Prod.snd).maximum = some m →
        HistoricalTemps.extreme_days ⟨z, s, e, la, lo, nm, some l⟩ m = .ok []) := by
  refine ⟨l.filter (fun p => t < p.2), rfl, List.filter_sublist l, ?_, ?_, ?_⟩
  · intro p hp
    simpa using List.of_mem_filter hp
  · intro p
    by_cases hp : t < p.2
    · simp [List.count_filter, hp]
    · rw [if_neg hp]
      refine List.count_eq_zero.mpr fun hmem => ?_
      exact hp (by simpa using List.of_mem_filter hmem)
  · intro m hm
    have hnil : l.filter (fun p => decide (m < p.2)) = [] := by
      refine List.filter_eq_nil_iff.mpr fun p hp => ?_
      have : p.2 ≤ m :=
        List.le_maximum_of_mem (List.mem_map_of_mem Prod.snd hp) hm
      simp [not_lt.mpr this]
    simpa [HistoricalTemps.extreme_days] using hnil

/-- Witness for C4: threshold below the top day keeps only that day, and
the maximum temperature as threshold yields the empty list. -/
theorem extreme_days_spec_witness :
    HistoricalTemps.extreme_days
        ⟨"z", "s", "e", none, none, none, some [("a", 5), ("b", 7)]⟩ 7 = .ok [] := by
  obtain ⟨r, -, -, -, -, hmax⟩ :=
    extreme_days_spec "z" "s" "e" none none none [("a", 5), ("b", 7)] 7
  exact hmax 7 (by decide)

/-- C10: in the change-dates dialog, a failed start assignment returns
immediately with the dataset exactly as before (for every would-be end
input, so the end assignment is never attempted); and a successful start
assignment followed by a failed end assignment leaves the new start in
place with the old end and the payload of the first reload — the start
change is not undone. -/
theorem change_dates_flow (fetch : Archive) (ds : HistoricalTemps)
    (new_start new_end : String) (hl : ds.is_data_loaded = true) :
    (∀ e1 : PyExc,
      fetch (HistoricalTemps.requestParams { ds with _start := new_start }) =
        .error e1 →
      change_dates fetch ds new_start new_end =
        (ds, .startFailed (.lookupError
          (HistoricalTemps.cant_load_msg "start" new_start e1.excMsg)))) ∧
    (∀ (resp : ArchiveResponse) (e2 : PyExc),
      fetch (HistoricalTemps.requestParams { ds with _start := new_start }) =
        .ok resp →
      fetch (HistoricalTemps.requestParams
          { ds with _start := new_start, _end := new_end }) = .error e2 →
      change_dates fetch ds new_start new_end =
        ({ ds with _start := new_start,
                   _temp_list := some (HistoricalTemps._convert_json_to_list resp) },
         .endFailed (.lookupError
          (HistoricalTemps.cant_load_msg "end" new_end e2.excMsg)))) := by
  cases ds with
  | mk z s en la lo nm tl =>
    simp only [HistoricalTemps.is_data_loaded, Option.isSome_iff_ne_none] at hl
    constructor
    · intro e1 h1
      simp only [HistoricalTemps.requestParams] at h1
      simp [change_dates, HistoricalTemps.is_data_loaded, hl,
        HistoricalTemps.set_start, HistoricalTemps._load_temps,
        HistoricalTemps.requestParams, h1]
    · intro resp e2 h1 h2
      simp only [HistoricalTemps.requestParams] at h1 h2
      simp [change_dates, HistoricalTemps.is_data_loaded, hl,
        HistoricalTemps.set_start, HistoricalTemps.set_end,
        HistoricalTemps._load_temps, HistoricalTemps.requestParams, h1, h2]

/-- Witness for C10: a fetch that always fails leaves the sample dataset
untouched after a start-change attempt; a fetch that accepts the old end
date but rejects the new one leaves the new start with the old end. -/
theorem change_dates_flow_witness :
    change_dates failFetch sample_ds "2024-01-01" "2024-12-31" =
      (sample_ds, .startFailed (.lookupError
        (HistoricalTemps.cant_load_msg "start" "2024-01-01" "connection refused"))) ∧
    change_dates splitFetch sample_ds "2024-01-01" "2024-12-31" =
      ({ sample_ds with _start := "2024-01-01",
                        _temp_list := some [("2020-01-01", 20)] },
       .endFailed (.lookupError
        (HistoricalTemps.cant_load_msg "end" "2024-12-31" "range unavailable"))) :=
  ⟨(change_dates_flow failFetch sample_ds "2024-01-01" "2024-12-31" rfl).1
      (.requestError "connection refused") rfl,
   (change_dates_flow splitFetch sample_ds "2024-01-01" "2024-12-31" rfl).2
      { time := ["2020-01-01"], temperature_2m_max := [20] }
      (.requestError "range unavailable") rfl rfl⟩

/-- Filtering for one fixed temperature commutes with ordered insertion
under the descending-by-temperature relation: elements skipped by the
insertion are strictly hotter, hence never share the inserted element's
temperature. -/
theorem filter_orderedInsert_snd (t : ℚ) (a : String × ℚ)
    (L : List (String × ℚ)) :
    (List.orderedInsert (fun x y => y.2 ≤ x.2) a L).filter (fun p => p.2 = t) =
      ((a :: L).filter (fun p => p.2 = t)) := by
  rw [List.orderedInsert_eq_take_drop, List.filter_append]
  by_cases ha : a.2 = t
  · have htw : (L.takeWhile fun b => decide ¬(b.2 ≤ a.2)).filter
        (fun p => decide (p.2 = t)) = [] := by
      refine List.filter_eq_nil_iff.mpr fun b hb => ?_
      have hlt : ¬ (b.2 ≤ a.2) := by simpa using List.mem_takeWhile_imp hb
      simp only [decide_eq_true_eq]
      intro hbt
      exact hlt (le_of_eq (hbt.trans ha.symm))
    have hLsplit : L.filter (fun p => decide (p.2 = t)) =
        (L.dropWhile fun b => decide ¬(b.2 ≤ a.2)).filter
          (fun p => decide (p.2 = t)) := by
      conv_lhs => rw [← List.takeWhile_append_dropWhile
        (p := fun b => decide ¬(b.2 ≤ a.2)) (l := L)]
      rw [List.filter_append, htw, List.nil_append]
    simp [htw, ha, hLsplit]
    intro s q hmem hq
    have hlt := List.mem_takeWhile_imp hmem
    rw [hq] at hlt
    simp at hlt
  · simp only [List.filter_cons, decide_eq_true_eq, ha, if_false]
    conv_rhs => rw [← List.takeWhile_append_dropWhile
      (p := fun b => decide ¬(b.2 ≤ a.2)) (l := L)]
    rw [List.filter_append]

/-- The stable descending sort does not change the subsequence of entries
holding any one fixed temperature. -/
theorem filter_pySortedByTempDesc (t : ℚ) (l : List (String × ℚ)) :
    (pySortedByTempDesc l).filter (fun p => p.2 = t) =
      l.filter (fun p => p.2 = t) := by
  induction l with
  | nil => rfl
  | cons a L ih =>
    have h := filter_orderedInsert_snd t a (pySortedByTempDesc L)
    rw [pySortedByTempDesc, List.insertionSort] at *
    rw [h, List.filter_cons, List.filter_cons, ih]

/-- C3 (amended): for every loaded payload and every nonnegative integer
`n`, `top_x_days n` returns the `min n |payload|` hottest pairs, sorted
descending by temperature, every returned temperature at least every
omitted one, ties kept in their original relative order (the returned
entries of any fixed temperature form the leading part of the payload's
entries of that temperature), and for `n ≥ |payload|` the whole payload
(as a permutation, in descending order). -/
theorem top_x_days_spec (z s e : String) (la lo : Option PyFloat)
    (nm : Option String) (l : List (String × ℚ)) (n : Int) (hn : 0 ≤ n) :
    ∃ r rest,
      HistoricalTemps.top_x_days ⟨z, s, e, la, lo, nm, some l⟩ n = .ok r ∧
      r.length = min n.toNat l.length ∧
      (r ++ rest).Perm l ∧
      r.Pairwise (fun a b => b.2 ≤ a.2) ∧
      (∀ x ∈ r, ∀ y ∈ rest, y.2 ≤ x.2) ∧
      (∀ t : ℚ, r.filter (fun p => p.2 = t) =
        (l.filter (fun p => p.2 = t)).take ((r.filter (fun p => p.2 = t)).length)) ∧
      ((l.length : Int) ≤ n → r.Perm l) := by
  haveI instTot : IsTotal (String × ℚ) (fun a b => b.2 ≤ a.2) :=
    ⟨fun a b => le_total b.2 a.2⟩
  haveI instTrans : IsTrans (String × ℚ) (fun a b => b.2 ≤ a.2) :=
    ⟨fun _ _ _ h1 h2 => le_trans h2 h1⟩
  have hsorted : List.Sorted (fun a b => b.2 ≤ a.2) (pySortedByTempDesc l) :=
    List.sorted_insertionSort _ l
  have hperm : (pySortedByTempDesc l).Perm l := List.perm_insertionSort _ l
  have hlen : (pySortedByTempDesc l).length = l.length := hperm.length_eq
  refine ⟨(pySortedByTempDesc l).take n.toNat, (pySortedByTempDesc l).drop n.toNat,
    ?_, ?_, ?_, ?_, ?_, ?_, ?_⟩
  · simp [HistoricalTemps.top_x_days, pySliceTo, hn, pySortedByTempDesc]
  · rw [List.length_take, hlen]
  · rw [List.take_append_drop]; exact hperm
  · exact hsorted.sublist (List.take_sublist _ _)
  · exact fun x hx y hy => hsorted.rel_of_mem_take_of_mem_drop hx hy
  · intro t
    have hsplit :
        ((pySortedByTempDesc l).take n.toNat).filter (fun p => p.2 = t) ++
          ((pySortedByTempDesc l).drop n.toNat).filter (fun p => p.2 = t) =
          l.filter (fun p => p.2 = t) := by
      rw [← List.filter_append, List.take_append_drop]
      exact filter_pySortedByTempDesc t l
    rw [← hsplit, List.take_left]
  · intro h
    have hle : l.length ≤ n.toNat := by omega
    rw [List.take_of_length_le (hlen ▸ hle)]
    exact hperm

/-- Witness for C3 at a two-day payload and `n = 1`. -/
theorem top_x_days_spec_witness :
    ∃ r rest,
      HistoricalTemps.top_x_days
          ⟨"z", "s", "e", none, none, none, some [("a", 1), ("b", 2)]⟩ 1 = .ok r ∧
      r.length = min 1 2 ∧
      (r ++ rest).Perm [("a", 1), ("b", 2)] ∧
      r.Pairwise (fun a b => b.2 ≤ a.2) ∧
      (∀ x ∈ r, ∀ y ∈ rest, y.2 ≤ x.2) ∧
      (∀ t : ℚ, r.filter (fun p => p.2 = t) =
        ([("a", (1 : ℚ)), ("b", 2)].filter (fun p => p.2 = t)).take
          ((r.filter (fun p => p.2 = t)).length)) ∧
      ((2 : Int) ≤ 1 → r.Perm [("a", 1), ("b", 2)]) :=
  top_x_days_spec "z" "s" "e" none none none [("a", 1), ("b", 2)] 1 (by decide)

/-- C3 counterexample: at `n = -1` Python slicing drops the last element of
the sorted payload, so on a two-entry payload the result has length 1,
while the claimed length `min n |payload|` is `-1`; the claim fails for
negative `n`. -/
theorem top_x_days_negative_cex :
    HistoricalTemps.top_x_days
        ⟨"z", "s", "e", none, none, none, some [("a", 1), ("b", 2)]⟩ (-1) =
      .ok [("b", 2)] ∧
    ¬ (([("b", (2 : ℚ))].length : Int) =
        min (-1 : Int) (([("a", (1 : ℚ)), ("b", 2)].length : Int))) := by
  exact ⟨rfl, by decide⟩
